import Mathlib

/-!
Verification of the Churn Scoring and Explainability Pipeline.

This file gives a shallow embedding of the core of the churn-prediction
service: the ensemble scorer thresholds and the feature normalizer of
`api.py`, the retention rule engine of `llm_api.py` (the extended variant
from `Tests/llm_api.py`), and a model of the additive attribution engine.
Probabilities and feature values are embedded as rationals; the thresholds
0.5, 0.3 and 0.7 compare the same way on the rationals as on the binary64
values the Python code manipulates at every input considered here.
-/

namespace Churn

/-! ### Ensemble scorer thresholds (api.py, predict_churn lines 158-177) -/

/-- Binary churn decision of `predict_churn`: the Python code computes
`int(churn_probability > 0.5)` (api.py lines 159 and 161), a strict
comparison against 0.5. -/
def churn_prediction (p : ℚ) : ℤ :=
  if p > 1/2 then 1 else 0

/-- Risk tier bucketing of `predict_churn` (api.py lines 164-177):
probability below 0.3 is Low, below 0.7 is Medium, otherwise High.
The same code is duplicated for the XGB and the RF probability. -/
def risk_level (p : ℚ) : String :=
  if p < 3/10 then "Low" else if p < 7/10 then "Medium" else "High"

/-! ### Feature normalizer (api.py, preprocess_input lines 72-140)

The Python code turns the incoming record into a one-row DataFrame keyed by
attribute name, adds every schema column that is absent with value 0, and
reindexes the frame by `feature_columns`, which both drops the columns not
in the schema and fixes the output order.  A profile is embedded as an
association list from attribute name to rational value. -/

/-- Column lookup in a profile: the value attached to the first occurrence
of the key, if any.  Profiles built from a Python dict have distinct keys. -/
def lookupProfile : List (String × ℚ) → String → Option ℚ
  | [], _ => none
  | (k, v) :: rest, key => if k = key then some v else lookupProfile rest key

/-- Embedding of `preprocess_input` (api.py lines 72-140): for each schema
column in order, take the profile value under that name when present, and
0 otherwise.  Profile keys outside the schema never reach the output, and
the output order is the schema order. -/
def preprocess_input (profile : List (String × ℚ)) (schema : List String) : List ℚ :=
  schema.map (fun c => (lookupProfile profile c).getD 0)

/-- The 17 feature columns the loaded models expect, in the order of the
`CustomerData` request model (api.py lines 35-52) that feeds
`preprocess_input` through `customer_data.dict()`. -/
def feature_columns : List String :=
  ["age", "credit_score", "withdrawal", "deposits", "purchases_partners",
   "cc_recommended", "web_user", "ios_user", "registered_phones",
   "waiting_4_loan", "cancelled_loan", "received_loan", "rejected_loan",
   "left_for_two_month_plus", "left_for_one_month", "reward_rate",
   "is_referred"]

/-- Per-model prediction result: probability, binary decision, risk tier
(fields of `PredictionResponse`, api.py lines 54-68, for one model). -/
structure PredictionResult where
  probability : ℚ
  decision : ℤ
  risk_tier : String
deriving DecidableEq, Repr

/-- One model scoring pass of `predict_churn` (api.py lines 158-177): the
model is abstracted as a function from the feature vector to its class-1
probability, and the thresholds are applied to it. -/
def score (model : List ℚ → ℚ) (v : List ℚ) : PredictionResult :=
  ⟨model v, churn_prediction (model v), risk_level (model v)⟩

/-! ### Retention rule engine (Tests/llm_api.py, generate_rule_based_insights)

The request model and the rule function are embedded field for field from
the source.  Python integer truthiness is embedded as inequality with 0.
The source file stores its literals double-encoded (UTF-8 read back
through Mac-Roman); the strings below are the decoded originals, which
match the sibling copy of the function in llm_api.py on the shared rules. -/

/-- Request model of the insight service (Tests/llm_api.py lines 85-119,
same fields as llm_api.py lines 69-101).  The three optional
method-selection fields are carried along although no rule consults them. -/
structure CustomerInsightRequest where
  age : ℤ
  housing : String
  credit_score : ℚ
  deposits : ℤ
  withdrawal : ℤ
  purchases_partners : ℤ
  purchases : ℤ
  cc_taken : ℤ
  cc_recommended : ℤ
  cc_disliked : ℤ
  cc_liked : ℤ
  cc_application_begin : ℤ
  app_downloaded : ℤ
  web_user : ℤ
  app_web_user : ℤ
  ios_user : ℤ
  android_user : ℤ
  registered_phones : ℤ
  payment_type : String
  waiting_4_loan : ℤ
  cancelled_loan : ℤ
  received_loan : ℤ
  rejected_loan : ℤ
  left_for_two_month_plus : ℤ
  left_for_one_month : ℤ
  rewards_earned : ℤ
  reward_rate : ℚ
  is_referred : ℤ
  churn_probability : ℚ
  churn_prediction : ℤ
  risk_level : String
  use_transformers : Bool
  use_ollama : Bool
  ollama_model : String

/-- Structured output of the rule engine: the three accumulator lists
(key_insights, recommendations, action_items) of
generate_rule_based_insights, before string rendering. -/
structure RecommendationBundle where
  key_insights : List String
  recommendations : List String
  action_items : List String
deriving DecidableEq, Repr

/-- The empty bundle: the three accumulators start as empty lists. -/
def emptyBundle : RecommendationBundle := ⟨[], [], []⟩

/-- Concatenation of two bundles, list by list.  This is how the in-order
append statements of two consecutive rule blocks compose. -/
def bundleAppend (a b : RecommendationBundle) : RecommendationBundle :=
  ⟨a.key_insights ++ b.key_insights,
   a.recommendations ++ b.recommendations,
   a.action_items ++ b.action_items⟩

/-- Risk level analysis block (if/elif/else on risk_level). -/
def riskLevelRule (c : CustomerInsightRequest) : RecommendationBundle :=
  if c.risk_level = "High" then
    ⟨[],
     ["🚨 ALTA PRIORIDAD: Se requiere intervención inmediata"],
     ["Programar llamada personal dentro de 24 horas",
      "Ofrecer soporte premium o gerente de cuenta"]⟩
  else if c.risk_level = "Medium" then
    ⟨[],
     ["⚠️ PRIORIDAD MEDIA: Se necesita compromiso proactivo"],
     ["Enviar oferta de retención personalizada"]⟩
  else
    ⟨[],
     ["✅ RIESGO BAJO: Enfocarse en compromiso y satisfacción"],
     []⟩

/-- Digital engagement block (if not app_downloaded). -/
def appAdoptionRule (c : CustomerInsightRequest) : RecommendationBundle :=
  if c.app_downloaded = 0 then
    ⟨[],
     ["📱 Fomentar adopción de app móvil con incentivos"],
     ["Enviar oferta de bonificación por descarga de app"]⟩
  else emptyBundle

/-- Inactivity block (if left_for_one_month or left_for_two_month_plus). -/
def inactivityRule (c : CustomerInsightRequest) : RecommendationBundle :=
  if c.left_for_one_month ≠ 0 ∨ c.left_for_two_month_plus ≠ 0 then
    ⟨["El cliente muestra patrones de inactividad - re-compromiso crítico"],
     ["🔄 Implementar campaña de reconquista"],
     ["Enviar email \x27Te extrañamos\x27 con ofertas especiales"]⟩
  else emptyBundle

/-- Credit score block (if credit_score < 600 elif credit_score > 750). -/
def creditScoreRule (c : CustomerInsightRequest) : RecommendationBundle :=
  if c.credit_score < 600 then
    ⟨[],
     ["💳 Ofrecer recursos y herramientas de mejora crediticia"],
     ["Proporcionar contenido de bienestar financiero"]⟩
  else if c.credit_score > 750 then
    ⟨[],
     ["⭐ Ofrecer productos y servicios premium"],
     ["Presentar oportunidades de inversión exclusivas"]⟩
  else emptyBundle

/-- Deposits block (if deposits < 3). -/
def depositsRule (c : CustomerInsightRequest) : RecommendationBundle :=
  if c.deposits < 3 then
    ⟨["Baja actividad de depósitos indica compromiso limitado"],
     ["💰 Fomentar configuración de depósito directo con incentivos"],
     ["Ofrecer bonificación por depósito directo"]⟩
  else emptyBundle

/-- Purchases block (if purchases < 10). -/
def purchasesRule (c : CustomerInsightRequest) : RecommendationBundle :=
  if c.purchases < 10 then
    ⟨[],
     ["🛒 Promover recompensas de gastos y programas de cashback"],
     ["Enviar ofertas de comerciantes dirigidas"]⟩
  else emptyBundle

/-- Credit card engagement block (if cc_disliked elif not cc_taken and
credit_score > 650). -/
def creditCardRule (c : CustomerInsightRequest) : RecommendationBundle :=
  if c.cc_disliked ≠ 0 then
    ⟨["El cliente tiene sentimiento negativo hacia productos de crédito"],
     ["🤝 Enfocarse en construir confianza a través de educación"],
     ["Compartir contenido educativo sobre crédito"]⟩
  else if c.cc_taken = 0 ∧ c.credit_score > 650 then
    ⟨[],
     ["💳 Presentar ofertas de tarjeta de crédito personalizadas"],
     ["Enviar invitación de tarjeta de crédito pre-aprobada"]⟩
  else emptyBundle

/-- Loan activity block (if rejected_loan elif received_loan). -/
def loanActivityRule (c : CustomerInsightRequest) : RecommendationBundle :=
  if c.rejected_loan ≠ 0 then
    ⟨["Rechazo previo de préstamo puede indicar frustración"],
     ["🏦 Ofrecer productos de préstamo alternativos o asesoría financiera"],
     ["Proporcionar consejos de mejora de préstamos"]⟩
  else if c.received_loan ≠ 0 then
    ⟨["Cliente exitoso de préstamo - relación de alto valor"],
     ["🎯 Venta cruzada de productos financieros adicionales"],
     []⟩
  else emptyBundle

/-- Rewards block (if rewards_earned < 50 elif rewards_earned > 500). -/
def rewardsRule (c : CustomerInsightRequest) : RecommendationBundle :=
  if c.rewards_earned < 50 then
    ⟨[],
     ["🎁 Educar sobre beneficios del programa de recompensas"],
     ["Enviar tutorial del programa de recompensas"]⟩
  else if c.rewards_earned > 500 then
    ⟨["Alto ganador de recompensas - cliente comprometido"],
     ["🏆 Ofrecer estatus VIP o beneficios exclusivos"],
     []⟩
  else emptyBundle

/-- Referral block (if is_referred). -/
def referralRule (c : CustomerInsightRequest) : RecommendationBundle :=
  if c.is_referred ≠ 0 then
    ⟨["Cliente referido - probablemente mayor valor de por vida"],
     ["👥 Aprovechar red de referidos para retención"],
     []⟩
  else emptyBundle

/-- Age block (if age < 30 elif age > 50). -/
def ageRule (c : CustomerInsightRequest) : RecommendationBundle :=
  if c.age < 30 then
    ⟨[],
     ["🎓 Ofrecer productos financieros para estudiantes/jóvenes profesionales"],
     ["Presentar herramientas de presupuesto y ahorro"]⟩
  else if c.age > 50 then
    ⟨[],
     ["🏡 Enfocarse en planificación de jubilación e inversiones"],
     ["Programar consulta de planificación financiera"]⟩
  else emptyBundle

/-- Enhanced rule 1: young customers with low credit score and
medium-high churn risk. -/
def youngLowCreditRule (c : CustomerInsightRequest) : RecommendationBundle :=
  if c.age < 30 ∧ c.credit_score < 600 ∧ c.risk_level ∈ ["Medium", "High"] then
    ⟨["Cliente joven con score crediticio bajo - oportunidad de desarrollo financiero"],
     ["📚 Implementar programa de educación financiera personalizado",
      "🔧 Ofrecer herramientas para mejorar score crediticio"],
     ["Enviar guía de construcción de crédito para jóvenes",
      "Ofrecer acceso facilitado a préstamos con condiciones educativas"]⟩
  else emptyBundle

/-- Enhanced rule 2: senior customers (60+) with medium-high risk. -/
def seniorDigitalRule (c : CustomerInsightRequest) : RecommendationBundle :=
  if c.age > 60 ∧ c.risk_level ∈ ["Medium", "High"] then
    ⟨["Cliente senior con riesgo elevado - necesita mayor compromiso digital"],
     ["👨‍💻 Fomentar adopción de servicios digitales con soporte personalizado",
      "🎓 Ofrecer educación digital y tutoriales paso a paso"],
     ["Programar sesión de entrenamiento digital personalizada",
      "Asignar especialista en servicios digitales para seniors"]⟩
  else emptyBundle

/-- Enhanced rule 3: very low credit score with medium-high churn risk. -/
def veryLowCreditRule (c : CustomerInsightRequest) : RecommendationBundle :=
  if c.credit_score < 400 ∧ c.risk_level ∈ ["Medium", "High"] then
    ⟨["Score crediticio crítico - requiere soporte financiero integral"],
     ["🆘 Implementar campaña de soporte financiero de emergencia",
      "🎯 Desarrollar productos personalizados para reconstrucción crediticia"],
     ["Contactar para evaluación de situación financiera",
      "Ofrecer plan de recuperación crediticia personalizado"]⟩
  else emptyBundle

/-- Enhanced rule 4: low partner purchases with medium-high churn risk. -/
def lowPartnerPurchasesRule (c : CustomerInsightRequest) : RecommendationBundle :=
  if c.purchases_partners < 3 ∧ c.risk_level ∈ ["Medium", "High"] then
    ⟨["Baja actividad en compras con socios - oportunidad de incrementar transacciones"],
     ["🛍️ Activar programa de incentivos para compras con socios",
      "📱 Promover uso de app web con descuentos exclusivos"],
     ["Enviar cupones de descuento para tiendas socias",
      "Ofrecer cashback aumentado por compras con socios"]⟩
  else emptyBundle

/-- Enhanced rule 5: referred customers with medium-high churn risk. -/
def referredAtRiskRule (c : CustomerInsightRequest) : RecommendationBundle :=
  if c.is_referred ≠ 0 ∧ c.risk_level ∈ ["Medium", "High"] then
    ⟨["Cliente referido con riesgo - aprovechar conexión de referencia"],
     ["🎉 Reconocer y recompensar por haber sido referido",
      "👥 Incentivar programa de referidos con recompensas dobles"],
     ["Enviar agradecimiento personalizado por ser cliente referido",
      "Ofrecer bonificación por referir nuevos clientes"]⟩
  else emptyBundle

/-- Enhanced rule 6: low churn risk with high credit score. -/
def ambassadorRule (c : CustomerInsightRequest) : RecommendationBundle :=
  if c.risk_level = "Low" ∧ c.credit_score > 700 then
    ⟨["Cliente estable con excelente perfil crediticio - embajador potencial"],
     ["🌟 Activar como embajador de marca con programa VIP de referidos",
      "💎 Ofrecer beneficios exclusivos por referir clientes de calidad"],
     ["Invitar a programa exclusivo de referidos VIP",
      "Ofrecer descuentos premium por cada referido exitoso"]⟩
  else emptyBundle

/-- Enhanced rule 7: weekly payment customers with medium-high churn risk. -/
def weeklyPaymentRule (c : CustomerInsightRequest) : RecommendationBundle :=
  if c.payment_type = "weekly" ∧ c.risk_level ∈ ["Medium", "High"] then
    ⟨["Pagos semanales pueden indicar presión financiera"],
     ["💳 Promover modalidades de pago más flexibles",
      "📅 Ofrecer opciones de pago mensual o quincenal"],
     ["Presentar opciones de pago que reduzcan carga financiera percibida",
      "Evaluar elegibilidad para planes de pago extendidos"]⟩
  else emptyBundle

/-- Enhanced rule 8: rented home with high credit score, with two mutually
exclusive sub-branches on waiting_4_loan == 1.  In the source dataset the
housing code r stands for the rented category (streamlit_ui.py line 104
renders r as Alquilada). -/
def rentedHighCreditRule (c : CustomerInsightRequest) : RecommendationBundle :=
  if c.housing = "r" ∧ c.credit_score > 700 then
    if c.waiting_4_loan = 1 then
      ⟨["Cliente con buen crédito en casa rentada esperando préstamo"],
       ["🏠 Acelerar proceso de préstamo hipotecario",
        "📈 Incentivar mayor actividad en plataforma durante espera"],
       ["Priorizar evaluación de solicitud de préstamo",
        "Ofrecer beneficios por mantener actividad durante proceso"]⟩
    else
      ⟨["Cliente con excelente crédito en casa rentada - oportunidad hipotecaria"],
       ["🏡 Presentar oportunidades de préstamo hipotecario",
        "💼 Ofrecer asesoría para compra de vivienda"],
       ["Enviar información sobre préstamos hipotecarios",
        "Programar consulta con especialista hipotecario"]⟩
  else emptyBundle

/-- The rule list of generate_rule_based_insights in source order: the
function body evaluates these nineteen independent blocks top to bottom. -/
def rulesList : List (CustomerInsightRequest → RecommendationBundle) :=
  [riskLevelRule, appAdoptionRule, inactivityRule, creditScoreRule,
   depositsRule, purchasesRule, creditCardRule, loanActivityRule,
   rewardsRule, referralRule, ageRule, youngLowCreditRule,
   seniorDigitalRule, veryLowCreditRule, lowPartnerPurchasesRule,
   referredAtRiskRule, ambassadorRule, weeklyPaymentRule,
   rentedHighCreditRule]

/-- Evaluation of an ordered rule list: every rule is applied to the input
and the per-rule bundles are concatenated in list order. -/
def runRules (rs : List (CustomerInsightRequest → RecommendationBundle))
    (c : CustomerInsightRequest) : RecommendationBundle :=
  (rs.map (fun r => r c)).foldr bundleAppend emptyBundle

/-- Embedding of generate_rule_based_insights (Tests/llm_api.py lines
399-581, structured part): each of the three accumulator lists is exactly
the in-order concatenation of what the nineteen blocks append to it. -/
def generate_rule_based_insights (c : CustomerInsightRequest) : RecommendationBundle :=
  ⟨(riskLevelRule c).key_insights ++ (appAdoptionRule c).key_insights ++
     (inactivityRule c).key_insights ++ (creditScoreRule c).key_insights ++
     (depositsRule c).key_insights ++ (purchasesRule c).key_insights ++
     (creditCardRule c).key_insights ++ (loanActivityRule c).key_insights ++
     (rewardsRule c).key_insights ++ (referralRule c).key_insights ++
     (ageRule c).key_insights ++ (youngLowCreditRule c).key_insights ++
     (seniorDigitalRule c).key_insights ++ (veryLowCreditRule c).key_insights ++
     (lowPartnerPurchasesRule c).key_insights ++ (referredAtRiskRule c).key_insights ++
     (ambassadorRule c).key_insights ++ (weeklyPaymentRule c).key_insights ++
     (rentedHighCreditRule c).key_insights,
   (riskLevelRule c).recommendations ++ (appAdoptionRule c).recommendations ++
     (inactivityRule c).recommendations ++ (creditScoreRule c).recommendations ++
     (depositsRule c).recommendations ++ (purchasesRule c).recommendations ++
     (creditCardRule c).recommendations ++ (loanActivityRule c).recommendations ++
     (rewardsRule c).recommendations ++ (referralRule c).recommendations ++
     (ageRule c).recommendations ++ (youngLowCreditRule c).recommendations ++
     (seniorDigitalRule c).recommendations ++ (veryLowCreditRule c).recommendations ++
     (lowPartnerPurchasesRule c).recommendations ++ (referredAtRiskRule c).recommendations ++
     (ambassadorRule c).recommendations ++ (weeklyPaymentRule c).recommendations ++
     (rentedHighCreditRule c).recommendations,
   (riskLevelRule c).action_items ++ (appAdoptionRule c).action_items ++
     (inactivityRule c).action_items ++ (creditScoreRule c).action_items ++
     (depositsRule c).action_items ++ (purchasesRule c).action_items ++
     (creditCardRule c).action_items ++ (loanActivityRule c).action_items ++
     (rewardsRule c).action_items ++ (referralRule c).action_items ++
     (ageRule c).action_items ++ (youngLowCreditRule c).action_items ++
     (seniorDigitalRule c).action_items ++ (veryLowCreditRule c).action_items ++
     (lowPartnerPurchasesRule c).action_items ++ (referredAtRiskRule c).action_items ++
     (ambassadorRule c).action_items ++ (weeklyPaymentRule c).action_items ++
     (rentedHighCreditRule c).action_items⟩

/-! ### Attribution engine model (api.py lines 180-184 and spec section 4.3) -/

/-- Modelled from the spec: the attribution engine itself is missing from
src/.  api.py only loads the pickled SHAP explainers
(XGBoost_model_explainer.pkl, RandomForest_model_explainer.pkl, built
offline by Tests/train_model.py from the shap library) and calls their
shap_values and expected_value members.  Following spec section 4.3, a
model over a feature set is abstracted as its set-function game
v : Finset String to rationals, where v S is the expectation of the model
raw score conditioned on knowing the features in S for the scored vector:
v of the empty set is the base value and v of the full schema is the raw
score of the vector.  marginalOf walks one feature ordering and returns
the marginal contribution of feature i at its position in that ordering:
the change in v when i joins the set of features placed before it. -/
def marginalOf (v : Finset String → ℚ) :
    Finset String → List String → String → ℚ
  | _, [], _ => 0
  | pre, j :: rest, i =>
    if j = i then v (insert j pre) - v pre
    else marginalOf v (insert j pre) rest i

/-- Modelled from the spec: the SHAP attribution of feature i is the
average over feature orderings of the marginal contribution of i (the
permutation form of the Shapley value, the decomposition TreeSHAP
computes exactly for tree ensembles). -/
def shapleyAttribution (v : Finset String → ℚ) (perms : List (List String))
    (i : String) : ℚ :=
  (perms.map (fun π => marginalOf v ∅ π i)).sum / (perms.length : ℚ)

/-- Modelled from the spec: the attribution vector of an explanation, one
entry per schema column, index-aligned with the feature vector. -/
def explain_attributions (v : Finset String → ℚ) (perms : List (List String))
    (schema : List String) : List ℚ :=
  schema.map (shapleyAttribution v perms)

/-- Modelled from the spec: base_value is the model expectation over the
training data, the game value of the empty feature set
(explainer.expected_value in api.py lines 183-184). -/
def base_value (v : Finset String → ℚ) : ℚ := v ∅

/-- Modelled from the spec: the raw score of the scored vector is the game
value of the full schema (every feature known). -/
def raw_score (v : Finset String → ℚ) (schema : List String) : ℚ :=
  v schema.toFinset

/-! ### Lookup lemmas for the normalizer -/

theorem lookupProfile_eq_none_iff (p : List (String × ℚ)) (k : String) :
    lookupProfile p k = none ↔ k ∉ p.map Prod.fst := by
  induction p with
  | nil => simp [lookupProfile]
  | cons hd tl ih =>
    obtain ⟨k2, v⟩ := hd
    by_cases h : k2 = k
    · subst h
      simp [lookupProfile]
    · rw [lookupProfile, if_neg h, ih]
      simp only [List.map_cons, List.mem_cons, not_or]
      constructor
      · exact fun hk => ⟨fun he => h he.symm, hk⟩
      · exact fun hk => hk.2

theorem lookupProfile_eq_some_iff (p : List (String × ℚ)) (k : String) (v : ℚ)
    (hnd : (p.map Prod.fst).Nodup) :
    lookupProfile p k = some v ↔ (k, v) ∈ p := by
  induction p with
  | nil => simp [lookupProfile]
  | cons hd tl ih =>
    obtain ⟨k2, w⟩ := hd
    simp only [List.map_cons, List.nodup_cons, List.mem_map] at hnd
    by_cases h : k2 = k
    · subst h
      rw [lookupProfile, if_pos rfl]
      simp only [List.mem_cons, Option.some_inj, Prod.mk.injEq]
      constructor
      · rintro rfl
        exact Or.inl ⟨trivial, rfl⟩
      · rintro (⟨-, rfl⟩ | h2)
        · rfl
        · exact absurd ⟨(k2, v), h2, rfl⟩ hnd.1
    · simp only [lookupProfile, if_neg h, List.mem_cons]
      rw [ih hnd.2]
      constructor
      · exact Or.inr
      · rintro (h2 | h2)
        · exact absurd (congrArg Prod.fst h2).symm h
        · exact h2

theorem lookupProfile_perm (p q : List (String × ℚ)) (k : String)
    (hperm : p.Perm q) (hnd : (p.map Prod.fst).Nodup) :
    lookupProfile p k = lookupProfile q k := by
  have hndq : (q.map Prod.fst).Nodup := (hperm.map Prod.fst).nodup_iff.mp hnd
  cases hv : lookupProfile p k with
  | none =>
    rw [lookupProfile_eq_none_iff] at hv
    symm
    rw [lookupProfile_eq_none_iff]
    exact fun hk => hv ((hperm.map Prod.fst).symm.subset hk)
  | some v =>
    rw [lookupProfile_eq_some_iff p k v hnd] at hv
    symm
    rw [lookupProfile_eq_some_iff q k v hndq]
    exact hperm.subset hv

/-! ### List-sum helper lemmas for the attribution engine -/

theorem list_sum_map_add {α : Type} (l : List α) (g h : α → ℚ) :
    (l.map (fun a => g a + h a)).sum = (l.map g).sum + (l.map h).sum := by
  induction l with
  | nil => simp
  | cons a t ih => simp [ih]; ring

theorem list_sum_map_zero {α : Type} (l : List α) :
    (l.map (fun _ => (0 : ℚ))).sum = 0 := by
  induction l <;> simp [*]

theorem list_sum_map_div {α : Type} (l : List α) (f : α → ℚ) (c : ℚ) :
    (l.map (fun a => f a / c)).sum = (l.map f).sum / c := by
  induction l with
  | nil => simp
  | cons a t ih => simp [ih, div_add_div_same]

theorem list_sum_map_const {α : Type} (l : List α) (k : ℚ) :
    (l.map (fun _ => k)).sum = (l.length : ℚ) * k := by
  induction l with
  | nil => simp
  | cons a t ih =>
    simp [ih]
    ring

theorem list_sum_comm {α β : Type} (l₁ : List α) (l₂ : List β) (f : α → β → ℚ) :
    (l₁.map (fun a => (l₂.map (fun b => f a b)).sum)).sum
      = (l₂.map (fun b => (l₁.map (fun a => f a b)).sum)).sum := by
  induction l₁ with
  | nil => simp [list_sum_map_zero]
  | cons a t ih =>
    simp only [List.map_cons, List.sum_cons, ih]
    rw [← list_sum_map_add]

/-! ### Telescoping lemmas for the attribution engine -/

theorem marginalOf_of_not_mem (v : Finset String → ℚ) (pre : Finset String)
    (π : List String) (i : String) (h : i ∉ π) :
    marginalOf v pre π i = 0 := by
  induction π generalizing pre with
  | nil => rfl
  | cons j rest ih =>
    simp only [List.mem_cons, not_or] at h
    rw [marginalOf, if_neg (fun hji => h.1 hji.symm)]
    exact ih _ h.2

theorem sum_marginalOf (v : Finset String → ℚ) (π : List String)
    (pre : Finset String) (hnd : π.Nodup) :
    (π.map (fun i => marginalOf v pre π i)).sum = v (pre ∪ π.toFinset) - v pre := by
  induction π generalizing pre with
  | nil => simp
  | cons j rest ih =>
    simp only [List.nodup_cons] at hnd
    simp only [List.map_cons, List.sum_cons]
    rw [marginalOf, if_pos rfl]
    have hcongr : rest.map (fun i => marginalOf v pre (j :: rest) i)
        = rest.map (fun i => marginalOf v (insert j pre) rest i) := by
      refine List.map_congr_left (fun i hi => ?_)
      rw [marginalOf]
      rw [if_neg (fun hji : j = i => hnd.1 (hji ▸ hi))]
    rw [hcongr, ih (insert j pre) hnd.2]
    rw [List.toFinset_cons, Finset.union_insert, Finset.insert_union]
    ring

/-! ### Rule engine helper lemmas -/

theorem mem_ite_list {p : Prop} [Decidable p] (a : String) (l l2 : List String) :
    (a ∈ if p then l else l2) ↔ (p ∧ a ∈ l) ∨ (¬p ∧ a ∈ l2) := by
  split_ifs with h <;> simp [h]

theorem foldr_bundleAppend_key (bs : List RecommendationBundle) :
    (bs.foldr bundleAppend emptyBundle).key_insights
      = (bs.map RecommendationBundle.key_insights).flatten := by
  induction bs with
  | nil => rfl
  | cons b t ih => simp [bundleAppend, ih]

theorem foldr_bundleAppend_recs (bs : List RecommendationBundle) :
    (bs.foldr bundleAppend emptyBundle).recommendations
      = (bs.map RecommendationBundle.recommendations).flatten := by
  induction bs with
  | nil => rfl
  | cons b t ih => simp [bundleAppend, ih]

theorem foldr_bundleAppend_acts (bs : List RecommendationBundle) :
    (bs.foldr bundleAppend emptyBundle).action_items
      = (bs.map RecommendationBundle.action_items).flatten := by
  induction bs with
  | nil => rfl
  | cons b t ih => simp [bundleAppend, ih]

theorem generate_eq_runRules (c : CustomerInsightRequest) :
    generate_rule_based_insights c = runRules rulesList c := by
  simp [generate_rule_based_insights, runRules, rulesList, bundleAppend,
    emptyBundle]

theorem generate_key_insights_eq (c : CustomerInsightRequest) :
    (generate_rule_based_insights c).key_insights
      = (rulesList.map (fun r => (r c).key_insights)).flatten := by
  rw [generate_eq_runRules, runRules, foldr_bundleAppend_key, List.map_map]
  rfl

theorem generate_recommendations_eq (c : CustomerInsightRequest) :
    (generate_rule_based_insights c).recommendations
      = (rulesList.map (fun r => (r c).recommendations)).flatten := by
  rw [generate_eq_runRules, runRules, foldr_bundleAppend_recs, List.map_map]
  rfl

theorem generate_action_items_eq (c : CustomerInsightRequest) :
    (generate_rule_based_insights c).action_items
      = (rulesList.map (fun r => (r c).action_items)).flatten := by
  rw [generate_eq_runRules, runRules, foldr_bundleAppend_acts, List.map_map]
  rfl

/-! ### Localization of the two mortgage fragments of enhanced rule 8

The accelerate fragment and the opportunity fragment occur in no rule
block other than rentedHighCreditRule, and inside it they sit in the two
mutually exclusive sub-branches. -/

/-- The accelerate-mortgage-processing recommendation fragment. -/
def accelFragment : String := "🏠 Acelerar proceso de préstamo hipotecario"

/-- The present-mortgage-opportunity recommendation fragment. -/
def oppFragment : String := "🏡 Presentar oportunidades de préstamo hipotecario"

theorem mortgage_not_in_riskLevelRule (c : CustomerInsightRequest) (x : String)
    (hx : x = accelFragment ∨ x = oppFragment) :
    x ∉ (riskLevelRule c).recommendations := by
  unfold riskLevelRule
  rcases hx with rfl | rfl <;> split_ifs <;> decide

theorem mortgage_not_in_appAdoptionRule (c : CustomerInsightRequest) (x : String)
    (hx : x = accelFragment ∨ x = oppFragment) :
    x ∉ (appAdoptionRule c).recommendations := by
  unfold appAdoptionRule
  rcases hx with rfl | rfl <;> split_ifs <;> decide

theorem mortgage_not_in_inactivityRule (c : CustomerInsightRequest) (x : String)
    (hx : x = accelFragment ∨ x = oppFragment) :
    x ∉ (inactivityRule c).recommendations := by
  unfold inactivityRule
  rcases hx with rfl | rfl <;> split_ifs <;> decide

theorem mortgage_not_in_creditScoreRule (c : CustomerInsightRequest) (x : String)
    (hx : x = accelFragment ∨ x = oppFragment) :
    x ∉ (creditScoreRule c).recommendations := by
  unfold creditScoreRule
  rcases hx with rfl | rfl <;> split_ifs <;> decide

theorem mortgage_not_in_depositsRule (c : CustomerInsightRequest) (x : String)
    (hx : x = accelFragment ∨ x = oppFragment) :
    x ∉ (depositsRule c).recommendations := by
  unfold depositsRule
  rcases hx with rfl | rfl <;> split_ifs <;> decide

theorem mortgage_not_in_purchasesRule (c : CustomerInsightRequest) (x : String)
    (hx : x = accelFragment ∨ x = oppFragment) :
    x ∉ (purchasesRule c).recommendations := by
  unfold purchasesRule
  rcases hx with rfl | rfl <;> split_ifs <;> decide

theorem mortgage_not_in_creditCardRule (c : CustomerInsightRequest) (x : String)
    (hx : x = accelFragment ∨ x = oppFragment) :
    x ∉ (creditCardRule c).recommendations := by
  unfold creditCardRule
  rcases hx with rfl | rfl <;> split_ifs <;> decide

theorem mortgage_not_in_loanActivityRule (c : CustomerInsightRequest) (x : String)
    (hx : x = accelFragment ∨ x = oppFragment) :
    x ∉ (loanActivityRule c).recommendations := by
  unfold loanActivityRule
  rcases hx with rfl | rfl <;> split_ifs <;> decide

theorem mortgage_not_in_rewardsRule (c : CustomerInsightRequest) (x : String)
    (hx : x = accelFragment ∨ x = oppFragment) :
    x ∉ (rewardsRule c).recommendations := by
  unfold rewardsRule
  rcases hx with rfl | rfl <;> split_ifs <;> decide

theorem mortgage_not_in_referralRule (c : CustomerInsightRequest) (x : String)
    (hx : x = accelFragment ∨ x = oppFragment) :
    x ∉ (referralRule c).recommendations := by
  unfold referralRule
  rcases hx with rfl | rfl <;> split_ifs <;> decide

theorem mortgage_not_in_ageRule (c : CustomerInsightRequest) (x : String)
    (hx : x = accelFragment ∨ x = oppFragment) :
    x ∉ (ageRule c).recommendations := by
  unfold ageRule
  rcases hx with rfl | rfl <;> split_ifs <;> decide

theorem mortgage_not_in_youngLowCreditRule (c : CustomerInsightRequest) (x : String)
    (hx : x = accelFragment ∨ x = oppFragment) :
    x ∉ (youngLowCreditRule c).recommendations := by
  unfold youngLowCreditRule
  rcases hx with rfl | rfl <;> split_ifs <;> decide

theorem mortgage_not_in_seniorDigitalRule (c : CustomerInsightRequest) (x : String)
    (hx : x = accelFragment ∨ x = oppFragment) :
    x ∉ (seniorDigitalRule c).recommendations := by
  unfold seniorDigitalRule
  rcases hx with rfl | rfl <;> split_ifs <;> decide

theorem mortgage_not_in_veryLowCreditRule (c : CustomerInsightRequest) (x : String)
    (hx : x = accelFragment ∨ x = oppFragment) :
    x ∉ (veryLowCreditRule c).recommendations := by
  unfold veryLowCreditRule
  rcases hx with rfl | rfl <;> split_ifs <;> decide

theorem mortgage_not_in_lowPartnerPurchasesRule (c : CustomerInsightRequest)
    (x : String) (hx : x = accelFragment ∨ x = oppFragment) :
    x ∉ (lowPartnerPurchasesRule c).recommendations := by
  unfold lowPartnerPurchasesRule
  rcases hx with rfl | rfl <;> split_ifs <;> decide

theorem mortgage_not_in_referredAtRiskRule (c : CustomerInsightRequest)
    (x : String) (hx : x = accelFragment ∨ x = oppFragment) :
    x ∉ (referredAtRiskRule c).recommendations := by
  unfold referredAtRiskRule
  rcases hx with rfl | rfl <;> split_ifs <;> decide

theorem mortgage_not_in_ambassadorRule (c : CustomerInsightRequest) (x : String)
    (hx : x = accelFragment ∨ x = oppFragment) :
    x ∉ (ambassadorRule c).recommendations := by
  unfold ambassadorRule
  rcases hx with rfl | rfl <;> split_ifs <;> decide

theorem mortgage_not_in_weeklyPaymentRule (c : CustomerInsightRequest) (x : String)
    (hx : x = accelFragment ∨ x = oppFragment) :
    x ∉ (weeklyPaymentRule c).recommendations := by
  unfold weeklyPaymentRule
  rcases hx with rfl | rfl <;> split_ifs <;> decide

theorem accel_in_rentedRule_iff (c : CustomerInsightRequest) :
    accelFragment ∈ (rentedHighCreditRule c).recommendations
      ↔ (c.housing = "r" ∧ c.credit_score > 700) ∧ c.waiting_4_loan = 1 := by
  unfold rentedHighCreditRule emptyBundle
  split_ifs with h1 h2 <;> simp_all <;> decide

theorem opp_in_rentedRule_iff (c : CustomerInsightRequest) :
    oppFragment ∈ (rentedHighCreditRule c).recommendations
      ↔ (c.housing = "r" ∧ c.credit_score > 700) ∧ c.waiting_4_loan ≠ 1 := by
  unfold rentedHighCreditRule emptyBundle
  split_ifs with h1 h2 <;> simp_all <;> decide

theorem mortgage_mem_generate_iff (c : CustomerInsightRequest) (x : String)
    (hx : x = accelFragment ∨ x = oppFragment) :
    (x ∈ (generate_rule_based_insights c).recommendations
      ↔ x ∈ (rentedHighCreditRule c).recommendations) := by
  unfold generate_rule_based_insights
  simp only [List.mem_append]
  simp [mortgage_not_in_riskLevelRule c x hx,
    mortgage_not_in_appAdoptionRule c x hx,
    mortgage_not_in_inactivityRule c x hx,
    mortgage_not_in_creditScoreRule c x hx,
    mortgage_not_in_depositsRule c x hx,
    mortgage_not_in_purchasesRule c x hx,
    mortgage_not_in_creditCardRule c x hx,
    mortgage_not_in_loanActivityRule c x hx,
    mortgage_not_in_rewardsRule c x hx,
    mortgage_not_in_referralRule c x hx,
    mortgage_not_in_ageRule c x hx,
    mortgage_not_in_youngLowCreditRule c x hx,
    mortgage_not_in_seniorDigitalRule c x hx,
    mortgage_not_in_veryLowCreditRule c x hx,
    mortgage_not_in_lowPartnerPurchasesRule c x hx,
    mortgage_not_in_referredAtRiskRule c x hx,
    mortgage_not_in_ambassadorRule c x hx,
    mortgage_not_in_weeklyPaymentRule c x hx]

/-! ### Concrete customers for the rule engine claims -/

/-- A referred customer at Medium risk: fires both the baseline referral
rule and enhanced rule 5, two independent rules.  Field order follows the
structure declaration. -/
def referredMediumCustomer : CustomerInsightRequest :=
  ⟨40, "o", 650, 5, 0, 5, 15, 1, 0, 0, 0, 0, 1, 1, 0, 0, 0, 1, "monthly",
   0, 0, 0, 0, 0, 0, 100, 1, 1, 1, 1, "Medium", false, false, "llama3.2"⟩

/-- A renter with credit score 750 waiting for a loan. -/
def rentedWaitingCustomer : CustomerInsightRequest :=
  ⟨35, "r", 750, 5, 0, 5, 15, 1, 0, 0, 0, 0, 1, 1, 0, 0, 0, 1, "monthly",
   1, 0, 0, 0, 0, 0, 100, 1, 0, 1, 0, "Medium", false, false, "llama3.2"⟩

/-- The same renter not waiting for a loan. -/
def rentedNotWaitingCustomer : CustomerInsightRequest :=
  ⟨35, "r", 750, 5, 0, 5, 15, 1, 0, 0, 0, 0, 1, 1, 0, 0, 0, 1, "monthly",
   0, 0, 0, 0, 0, 0, 100, 1, 0, 1, 0, "Medium", false, false, "llama3.2"⟩

/-! ### Claim theorems -/

/-- C1.  Attribution reconstruction: for every game v (one per model, so
the statement instantiates independently at the XGBoost and the
RandomForest explainer), every nonempty family of feature orderings of a
duplicate-free schema, the explanation satisfies
base_value + sum of attributions = raw score, hence reconstructs the raw
score within any tolerance, in particular 1e-6. -/
theorem C1_attribution_reconstruction (v : Finset String → ℚ)
    (perms : List (List String)) (schema : List String)
    (hnd : schema.Nodup) (hne : perms ≠ [])
    (hp : ∀ π ∈ perms, π.Perm schema) :
    base_value v + (explain_attributions v perms schema).sum = raw_score v schema
      ∧ |base_value v + (explain_attributions v perms schema).sum
          - raw_score v schema| ≤ 1 / 1000000 := by
  have hlen : (perms.length : ℚ) ≠ 0 := by
    have h0 : perms.length ≠ 0 := fun h => hne (List.length_eq_zero.mp h)
    exact_mod_cast h0
  have hinner : ∀ π ∈ perms,
      (schema.map fun i => marginalOf v ∅ π i).sum
        = raw_score v schema - base_value v := by
    intro π hπ
    have hperm : π.Perm schema := hp π hπ
    have hπnd : π.Nodup := (hperm.nodup_iff).mpr hnd
    have h1 : (schema.map fun i => marginalOf v ∅ π i).sum
        = (π.map fun i => marginalOf v ∅ π i).sum :=
      ((hperm.map fun i => marginalOf v ∅ π i).sum_eq).symm
    rw [h1, sum_marginalOf v π ∅ hπnd, Finset.empty_union,
      List.toFinset_eq_of_perm π schema hperm]
    rfl
  have key : (explain_attributions v perms schema).sum
      = raw_score v schema - base_value v := by
    unfold explain_attributions shapleyAttribution
    rw [list_sum_map_div schema
      (fun i => (perms.map fun π => marginalOf v ∅ π i).sum) ((perms.length : ℚ))]
    rw [list_sum_comm schema perms fun i π => marginalOf v ∅ π i]
    rw [List.map_congr_left hinner,
      list_sum_map_const perms (raw_score v schema - base_value v)]
    exact mul_div_cancel_left₀ _ hlen
  have hzero : base_value v + (explain_attributions v perms schema).sum
      - raw_score v schema = 0 := by
    rw [key]; ring
  refine ⟨by linarith [hzero], ?_⟩
  rw [hzero]
  norm_num

/-- C1 witness: a concrete two-feature additive game, both orderings. -/
theorem C1_attribution_reconstruction_witness :
    base_value (fun S => (if "age" ∈ S then (2 : ℚ) else 0)
        + (if "credit_score" ∈ S then 5 else 0) + 3)
      + (explain_attributions
          (fun S => (if "age" ∈ S then (2 : ℚ) else 0)
            + (if "credit_score" ∈ S then 5 else 0) + 3)
          [["age", "credit_score"], ["credit_score", "age"]]
          ["age", "credit_score"]).sum
      = raw_score (fun S => (if "age" ∈ S then (2 : ℚ) else 0)
          + (if "credit_score" ∈ S then 5 else 0) + 3) ["age", "credit_score"] :=
  (C1_attribution_reconstruction _ _ _ (by decide) (by decide) (by decide)).1

/-- C2.  Alignment invariant of the feature normalizer: the output length
equals the schema length; the output is invariant under reordering of the
profile map; profile keys outside the schema are dropped without effect;
and entry i of the output is determined by schema column i. -/
theorem C2_alignment_invariant (profile profile2 : List (String × ℚ))
    (schema : List String) (hnd : (profile.map Prod.fst).Nodup)
    (hperm : profile.Perm profile2) :
    (preprocess_input profile schema).length = schema.length
      ∧ preprocess_input profile schema = preprocess_input profile2 schema
      ∧ (∀ k v, k ∉ schema →
          preprocess_input ((k, v) :: profile) schema
            = preprocess_input profile schema)
      ∧ ∀ i : Fin schema.length,
          (preprocess_input profile schema).get
              (Fin.cast (by simp [preprocess_input]) i)
            = (lookupProfile profile (schema.get i)).getD 0 := by
  refine ⟨by simp [preprocess_input], ?_, ?_, ?_⟩
  · unfold preprocess_input
    refine List.map_congr_left fun c _ => ?_
    rw [lookupProfile_perm profile profile2 c hperm hnd]
  · intro k v hk
    unfold preprocess_input
    refine List.map_congr_left fun c hc => ?_
    have hne : k ≠ c := fun h => hk (h ▸ hc)
    rw [lookupProfile, if_neg hne]
  · intro i
    simp [preprocess_input]

/-- C2 witness: a two-key profile in both iteration orders against a
three-column schema holding an extra column. -/
theorem C2_alignment_invariant_witness :
    (preprocess_input [("b", 2), ("a", 1)] ["a", "x", "b"]).length = 3
      ∧ preprocess_input [("b", 2), ("a", 1)] ["a", "x", "b"]
          = preprocess_input [("a", 1), ("b", 2)] ["a", "x", "b"] := by
  have h := C2_alignment_invariant [("b", 2), ("a", 1)] [("a", 1), ("b", 2)]
    ["a", "x", "b"] (by decide) (by decide)
  exact ⟨h.1, h.2.1⟩

/-- C3 counterexample: at probability exactly 0.5 the code decides 0
(strict comparison), so the claimed biconditional decision = 1 iff
probability at least 0.5 is false at 0.5. -/
theorem C3_decision_threshold_counterexample :
    ¬ (churn_prediction (1/2) = 1 ↔ (1/2 : ℚ) ≥ 1/2) := by
  norm_num [churn_prediction]

/-- C3 amended: the binary decision is 1 iff the probability is strictly
greater than 0.5; in particular 0.5 yields decision 0 and 0.49999 yields
decision 0. -/
theorem C3_decision_threshold_amended (p : ℚ) :
    (churn_prediction p = 1 ↔ p > 1/2)
      ∧ (churn_prediction p = 0 ↔ p ≤ 1/2)
      ∧ churn_prediction (1/2) = 0
      ∧ churn_prediction (49999/100000) = 0 := by
  refine ⟨?_, ?_, by norm_num [churn_prediction], by norm_num [churn_prediction]⟩
  · unfold churn_prediction
    split_ifs with h <;> simp [h] <;> linarith
  · unfold churn_prediction
    split_ifs with h <;> simp [h] <;> linarith

/-- C4.  Risk tier mapping with exact boundaries: Low iff p < 0.3, High
iff p at least 0.7, Medium iff p in the interval from 0.3 inclusive to
0.7 exclusive, and the four boundary probes of the spec. -/
theorem C4_risk_tier_mapping (p : ℚ) :
    (risk_level p = "Low" ↔ p < 3/10)
      ∧ (risk_level p = "High" ↔ p ≥ 7/10)
      ∧ (risk_level p = "Medium" ↔ 3/10 ≤ p ∧ p < 7/10)
      ∧ risk_level (29999/100000) = "Low"
      ∧ risk_level (3/10) = "Medium"
      ∧ risk_level (69999/100000) = "Medium"
      ∧ risk_level (7/10) = "High" := by
  have hLow : ∀ q : ℚ, risk_level q = "Low" ↔ q < 3/10 := by
    intro q
    unfold risk_level
    split_ifs with h1 h2 <;> simp_all
  have hHigh : ∀ q : ℚ, risk_level q = "High" ↔ q ≥ 7/10 := by
    intro q
    unfold risk_level
    split_ifs with h1 h2 <;> simp_all
    linarith
  have hMed : ∀ q : ℚ, risk_level q = "Medium" ↔ 3/10 ≤ q ∧ q < 7/10 := by
    intro q
    unfold risk_level
    split_ifs with h1 h2 <;> simp_all
  exact ⟨hLow p, hHigh p, hMed p,
    (hLow _).mpr (by norm_num),
    (hMed _).mpr ⟨le_refl _, by norm_num⟩,
    (hMed _).mpr ⟨by norm_num, by norm_num⟩,
    (hHigh _).mpr (by norm_num)⟩

/-- C5.  Default fill on missing fields: against the 17-column schema
every profile yields a vector of length 17, each schema column missing
from the profile reads 0 in the output, and scoring the vector with any
model always yields a decision in 0 or 1 and a tier among the three
levels (the request never crashes). -/
theorem C5_default_fill_on_missing (profile : List (String × ℚ))
    (model : List ℚ → ℚ) :
    (preprocess_input profile feature_columns).length = 17
      ∧ (∀ i : Fin feature_columns.length,
          feature_columns.get i ∉ profile.map Prod.fst →
            (preprocess_input profile feature_columns).get
              (Fin.cast (by simp [preprocess_input]) i) = 0)
      ∧ ((score model (preprocess_input profile feature_columns)).decision = 0
          ∨ (score model (preprocess_input profile feature_columns)).decision = 1)
      ∧ ((score model (preprocess_input profile feature_columns)).risk_tier = "Low"
          ∨ (score model (preprocess_input profile feature_columns)).risk_tier = "Medium"
          ∨ (score model (preprocess_input profile feature_columns)).risk_tier = "High") := by
  refine ⟨by simp [preprocess_input, feature_columns], ?_, ?_, ?_⟩
  · intro i hi
    have h0 : lookupProfile profile (feature_columns.get i) = none :=
      (lookupProfile_eq_none_iff profile _).mpr hi
    rw [List.get_eq_getElem] at h0
    simp [preprocess_input, h0]
  · unfold score churn_prediction
    split_ifs <;> simp
  · unfold score risk_level
    split_ifs <;> simp

/-- C5 witness: a profile holding only 7 of the 17 schema fields still
yields the full 17-entry vector, with zeros at the 10 missing columns. -/
theorem C5_default_fill_on_missing_witness :
    (preprocess_input [("age", 30), ("credit_score", 600), ("deposits", 5),
        ("waiting_4_loan", 1), ("reward_rate", 3), ("is_referred", 1),
        ("withdrawal", 2)] feature_columns).length = 17
      ∧ preprocess_input [("age", 30), ("credit_score", 600), ("deposits", 5),
          ("waiting_4_loan", 1), ("reward_rate", 3), ("is_referred", 1),
          ("withdrawal", 2)] feature_columns
        = [30, 600, 2, 5, 0, 0, 0, 0, 0, 1, 0, 0, 0, 0, 0, 3, 1] := by
  refine ⟨(C5_default_fill_on_missing _ (fun _ => 0)).1, ?_⟩
  decide

/-- C10.  Decision and tier consistency: a decision of 1 forces a Medium
or High tier, and a High tier forces a decision of 1, for either model
since both run the same thresholds. -/
theorem C10_decision_tier_consistency (p : ℚ) :
    (churn_prediction p = 1 → risk_level p = "Medium" ∨ risk_level p = "High")
      ∧ (risk_level p = "High" → churn_prediction p = 1) := by
  unfold churn_prediction risk_level
  split_ifs with h1 h2 h3 <;> simp_all <;> try linarith

/-- C10 witness: at probability 0.8 the tier is High and the decision 1. -/
theorem C10_decision_tier_consistency_witness :
    churn_prediction (4/5) = 1 :=
  (C10_decision_tier_consistency (4/5)).2 (by norm_num [risk_level])

/-- C6.  Fixed-order, non-exclusive rule evaluation: for every input the
engine output equals the fold of the full nineteen-rule list in source
order (so every firing rule contributes, concatenated in evaluation
order, with no short-circuiting), and on a referred Medium-risk customer
the key insights of the two independent referral rules (the baseline
referral rule and enhanced rule 5) both appear in the output. -/
theorem C6_rule_order_nonexclusive :
    (∀ c, generate_rule_based_insights c = runRules rulesList c)
      ∧ "Cliente referido - probablemente mayor valor de por vida"
          ∈ (generate_rule_based_insights referredMediumCustomer).key_insights
      ∧ "Cliente referido con riesgo - aprovechar conexión de referencia"
          ∈ (generate_rule_based_insights referredMediumCustomer).key_insights := by
  refine ⟨generate_eq_runRules, ?_, ?_⟩ <;> decide

/-- C7.  Rule engine determinism and noninterference: the bundle is a
pure function of the fields the rules consult, so identical inputs give
identical output, and two inputs that agree on every consulted field and
differ arbitrarily in the unconsulted ones (withdrawal, web_user,
cc_liked, churn_probability and the rest) give identical output too. -/
theorem C7_rule_engine_determinism (c1 c2 : CustomerInsightRequest)
    (h1 : c1.age = c2.age) (h2 : c1.housing = c2.housing)
    (h3 : c1.credit_score = c2.credit_score) (h4 : c1.deposits = c2.deposits)
    (h5 : c1.purchases_partners = c2.purchases_partners)
    (h6 : c1.purchases = c2.purchases) (h7 : c1.cc_taken = c2.cc_taken)
    (h8 : c1.cc_disliked = c2.cc_disliked)
    (h9 : c1.app_downloaded = c2.app_downloaded)
    (h10 : c1.payment_type = c2.payment_type)
    (h11 : c1.waiting_4_loan = c2.waiting_4_loan)
    (h12 : c1.received_loan = c2.received_loan)
    (h13 : c1.rejected_loan = c2.rejected_loan)
    (h14 : c1.left_for_two_month_plus = c2.left_for_two_month_plus)
    (h15 : c1.left_for_one_month = c2.left_for_one_month)
    (h16 : c1.rewards_earned = c2.rewards_earned)
    (h17 : c1.is_referred = c2.is_referred)
    (h18 : c1.risk_level = c2.risk_level) :
    generate_rule_based_insights c1 = generate_rule_based_insights c2 := by
  obtain ⟨a1, b1, d1, e1, f1, g1, i1, j1, k1, l1, m1, n1, o1, p1, q1, r1,
    s1, t1, u1, v1, w1, x1, y1, z1, aa1, ab1, ac1, ad1, ae1, af1, ag1,
    ah1, ai1, aj1⟩ := c1
  obtain ⟨a2, b2, d2, e2, f2, g2, i2, j2, k2, l2, m2, n2, o2, p2, q2, r2,
    s2, t2, u2, v2, w2, x2, y2, z2, aa2, ab2, ac2, ad2, ae2, af2, ag2,
    ah2, ai2, aj2⟩ := c2
  dsimp only at *
  subst_vars
  rfl

/-- A customer identical to referredMediumCustomer on every field the
rules consult, and different on every field they do not. -/
def referredMediumCustomerAlt : CustomerInsightRequest :=
  ⟨40, "o", 650, 5, 9, 5, 15, 1, 3, 0, 7, 2, 1, 0, 1, 1, 1, 4, "monthly",
   0, 1, 0, 0, 0, 0, 100, 2, 1, 3, 0, "Medium", true, true, "phi3"⟩

/-- C7 witness: the two concrete customers differ only in unconsulted
fields and yield the same bundle. -/
theorem C7_rule_engine_determinism_witness :
    generate_rule_based_insights referredMediumCustomer
      = generate_rule_based_insights referredMediumCustomerAlt :=
  C7_rule_engine_determinism _ _ rfl rfl rfl rfl rfl rfl rfl rfl rfl rfl
    rfl rfl rfl rfl rfl rfl rfl rfl

/-- C8.  Rented-housing compound rule: every renter (housing code r, the
rented category of the source dataset) with credit score 750 gets
exactly the accelerate fragment when waiting_4_loan is 1 and exactly the
opportunity fragment otherwise, and no input whatsoever receives both
fragments. -/
theorem C8_rented_mortgage_subbranches (c : CustomerInsightRequest)
    (hh : c.housing = "r") (hcs : c.credit_score = 750) :
    (c.waiting_4_loan = 1 →
        accelFragment ∈ (generate_rule_based_insights c).recommendations
          ∧ oppFragment ∉ (generate_rule_based_insights c).recommendations)
      ∧ (c.waiting_4_loan ≠ 1 →
        oppFragment ∈ (generate_rule_based_insights c).recommendations
          ∧ accelFragment ∉ (generate_rule_based_insights c).recommendations)
      ∧ ∀ c2 : CustomerInsightRequest,
          ¬ (accelFragment ∈ (generate_rule_based_insights c2).recommendations
            ∧ oppFragment ∈ (generate_rule_based_insights c2).recommendations) := by
  have hacc : ∀ c2 : CustomerInsightRequest,
      accelFragment ∈ (generate_rule_based_insights c2).recommendations
        ↔ (c2.housing = "r" ∧ c2.credit_score > 700) ∧ c2.waiting_4_loan = 1 :=
    fun c2 => (mortgage_mem_generate_iff c2 _ (Or.inl rfl)).trans
      (accel_in_rentedRule_iff c2)
  have hopp : ∀ c2 : CustomerInsightRequest,
      oppFragment ∈ (generate_rule_based_insights c2).recommendations
        ↔ (c2.housing = "r" ∧ c2.credit_score > 700) ∧ c2.waiting_4_loan ≠ 1 :=
    fun c2 => (mortgage_mem_generate_iff c2 _ (Or.inr rfl)).trans
      (opp_in_rentedRule_iff c2)
  refine ⟨?_, ?_, ?_⟩
  · intro hw
    exact ⟨(hacc c).mpr ⟨⟨hh, by rw [hcs]; norm_num⟩, hw⟩,
      fun hmem => (((hopp c).mp hmem).2) hw⟩
  · intro hw
    exact ⟨(hopp c).mpr ⟨⟨hh, by rw [hcs]; norm_num⟩, hw⟩,
      fun hmem => hw (((hacc c).mp hmem).2)⟩
  · intro c2 hboth
    exact (((hopp c2).mp hboth.2).2) (((hacc c2).mp hboth.1).2)

/-- C8 witness: the two concrete renters receive the two fragments. -/
theorem C8_rented_mortgage_subbranches_witness :
    accelFragment
        ∈ (generate_rule_based_insights rentedWaitingCustomer).recommendations
      ∧ oppFragment
        ∈ (generate_rule_based_insights rentedNotWaitingCustomer).recommendations := by
  refine ⟨((C8_rented_mortgage_subbranches rentedWaitingCustomer rfl rfl).1 rfl).1, ?_⟩
  exact ((C8_rented_mortgage_subbranches rentedNotWaitingCustomer rfl rfl).2.1
    (by decide)).1

/-- C9.  No rule suppresses another and no rule throws: the engine is a
total function of its request type (every consulted field is present by
construction, so every predicate evaluates to a boolean), and the
contribution of each rule of the list, firing or not, appears as a
contiguous infix of each of the three output sequences, whatever every
other rule did on the same input. -/
theorem C9_no_rule_suppression (c : CustomerInsightRequest)
    (r : CustomerInsightRequest → RecommendationBundle) (hr : r ∈ rulesList) :
    (r c).key_insights <:+: (generate_rule_based_insights c).key_insights
      ∧ (r c).recommendations <:+: (generate_rule_based_insights c).recommendations
      ∧ (r c).action_items <:+: (generate_rule_based_insights c).action_items := by
  refine ⟨?_, ?_, ?_⟩
  · rw [generate_key_insights_eq]
    exact List.infix_of_mem_flatten (List.mem_map_of_mem _ hr)
  · rw [generate_recommendations_eq]
    exact List.infix_of_mem_flatten (List.mem_map_of_mem _ hr)
  · rw [generate_action_items_eq]
    exact List.infix_of_mem_flatten (List.mem_map_of_mem _ hr)

/-- C9 witness: the risk rule contribution sits inside the output on a
concrete customer. -/
theorem C9_no_rule_suppression_witness :
    (riskLevelRule referredMediumCustomer).recommendations
      <:+: (generate_rule_based_insights referredMediumCustomer).recommendations :=
  (C9_no_rule_suppression referredMediumCustomer riskLevelRule
    (by simp [rulesList])).2.1

end Churn
